import Mathlib

/-!
Verification model of `python-scripts/PlotProdCons.py`.

The script reads `*-prod-cons.data` files from a directory; each line is
`timeslot, day-of-week, hour-of-day, production, consumption` separated by
the two-character sequence ", ".  Rows with consumption < 0 contribute
`net = -production - consumption` to a global 168-bucket store indexed by
`(day-of-week - 1) * 24 + hour-of-day`; the buckets are then reduced to
means and population standard deviations.

Python strings are modelled as `List Char`; Python floats are modelled as
exact rationals (every value handled by the claims is an exact decimal, so
the rational semantics agrees with IEEE double on them); the `nan` produced
by numpy on empty buckets is modelled by an explicit `RVal.nan`
constructor; Python's one-shot generator objects are modelled by a state
that is consumed by iteration.
-/

/-- The field separator used by `line.split(', ')`: comma followed by space. -/
def fieldSep : List Char := ", ".data

/-- Characters removed by Python's `str.strip()` (as applied by `float`/`int`
to their argument): ASCII whitespace. -/
def isPySpace (c : Char) : Bool :=
  c = ' ' ∨ c = '\t' ∨ c = '\n' ∨ c = '\r' ∨ c = '\x0b' ∨ c = '\x0c'

/-- Model of Python `str.strip()`: drop leading and trailing whitespace. -/
def pyStrip (s : List Char) : List Char :=
  ((s.dropWhile isPySpace).reverse.dropWhile isPySpace).reverse

/-- First occurrence of the separator `sep` in a string: returns the part
before it and the part after it, or `none` when `sep` does not occur. -/
def splitFirst (sep : List Char) : List Char → Option (List Char × List Char)
  | [] => none
  | c :: cs =>
    if sep.isPrefixOf (c :: cs) then some ([], (c :: cs).drop sep.length)
    else
      match splitFirst sep cs with
      | none => none
      | some p => some (c :: p.1, p.2)

/-- Fuelled worker for `pySplit`; the fuel bounds the number of cuts, and
`pySplit` passes the string length, which always suffices for a non-empty
separator since every cut consumes at least one character. -/
def pySplitFuel (sep : List Char) : Nat → List Char → List (List Char)
  | 0, s => [s]
  | fuel + 1, s =>
    match splitFirst sep s with
    | none => [s]
    | some p => p.1 :: pySplitFuel sep fuel p.2

/-- Model of Python `str.split(sep)` for a non-empty separator: cut at every
non-overlapping occurrence of `sep`, left to right, keeping empty pieces. -/
def pySplit (s sep : List Char) : List (List Char) :=
  pySplitFuel sep s.length s

/-- Numeric value of a list of decimal digit characters, most significant
digit first. -/
def digitsVal (l : List Char) : Nat :=
  l.foldl (fun a c => a * 10 + (c.toNat - 48)) 0

/-- Split a string into its longest prefix of decimal digits and the rest. -/
def parseDigits : List Char → List Char × List Char
  | [] => ([], [])
  | c :: cs =>
    if c.isDigit then
      let p := parseDigits cs
      (c :: p.1, p.2)
    else ([], c :: cs)

/-- Model of Python's `int(str)` on the decimal forms the data files can
contain: strip whitespace, optional sign, then one or more digits; anything
else raises `ValueError`, modelled as `none`. -/
def pyInt (s : List Char) : Option Int :=
  match pyStrip s with
  | [] => none
  | '-' :: ds =>
    if ds ≠ [] ∧ ds.all Char.isDigit then some (-(digitsVal ds : Int)) else none
  | '+' :: ds =>
    if ds ≠ [] ∧ ds.all Char.isDigit then some (digitsVal ds : Int) else none
  | ds =>
    if ds.all Char.isDigit then some (digitsVal ds : Int) else none

/-- Exponent part of a float literal, after the `e`: optional sign then one
or more digits, consuming the whole rest of the string. -/
def parseExpPart (l : List Char) : Option Int :=
  match l with
  | '-' :: ds =>
    if ds ≠ [] ∧ ds.all Char.isDigit then some (-(digitsVal ds : Int)) else none
  | '+' :: ds =>
    if ds ≠ [] ∧ ds.all Char.isDigit then some (digitsVal ds : Int) else none
  | ds =>
    if ds ≠ [] ∧ ds.all Char.isDigit then some (digitsVal ds : Int) else none

/-- Decimal reading of a Python float literal: strip whitespace, optional
sign, digits with an optional fractional part, optional exponent.  The
result is `(mantissa, exponent)` with value `mantissa * 10 ^ exponent`;
invalid text gives `none`.  (The special forms `inf`, `nan` and underscore
separators never occur in the data and are not modelled.) -/
def pyFloatD (s : List Char) : Option (Int × Int) :=
  let t := pyStrip s
  let sgn : Int × List Char :=
    match t with
    | '-' :: r => (-1, r)
    | '+' :: r => (1, r)
    | r => (1, r)
  let ip := parseDigits sgn.2
  let fp : List Char × List Char :=
    match ip.2 with
    | '.' :: r => parseDigits r
    | r => ([], r)
  if ip.1 = [] ∧ fp.1 = [] then none
  else
    let mant : Int := sgn.1 * (digitsVal ip.1 * 10 ^ fp.1.length + digitsVal fp.1)
    let fexp : Int := -(fp.1.length : Int)
    match fp.2 with
    | [] => some (mant, fexp)
    | e :: r =>
      if e = 'e' ∨ e = 'E' then
        match parseExpPart r with
        | some ex => some (mant, fexp + ex)
        | none => none
      else none

/-- Rational value of a decimal `(mantissa, exponent)` pair. -/
def decVal (m e : Int) : ℚ := (m : ℚ) * (10 : ℚ) ^ e

/-- Model of Python's `float(str)`: the rational value of the decimal
literal, or `none` for a `ValueError`. -/
def pyFloat (s : List Char) : Option ℚ :=
  match pyFloatD s with
  | none => none
  | some p => some (decVal p.1 p.2)

/-- Model of `floatMaybe` from the script: a non-empty string is parsed
with `float` (raising on invalid text); an empty string prints a
diagnostic (`failed to float`) and yields the default 0.0.  The boolean
records whether the diagnostic was printed. -/
def floatMaybe (s : List Char) : Except String (ℚ × Bool) :=
  if s ≠ [] then
    match pyFloat s with
    | some v => Except.ok (v, false)
    | none => Except.error "ValueError"
  else
    Except.ok ((0 : ℚ), true)

/-- Python list-index normalization: a non-negative index must be below the
length, a negative index counts from the end; out-of-range gives `none`
(an `IndexError`). -/
def pyNormIdx (len : Nat) (i : Int) : Option Nat :=
  if 0 ≤ i then
    if i.toNat < len then some i.toNat else none
  else
    if i.natAbs ≤ len then some (len - i.natAbs) else none

/-- Model of Python list subscription `l[i]`. -/
def pyIdx {α : Type} (l : List α) (i : Int) : Option α :=
  match pyNormIdx l.length i with
  | none => none
  | some n => l[n]?

/-- Append one value to the bucket at (already normalized) position `n`. -/
def listAppendAt (store : List (List ℚ)) (n : Nat) (v : ℚ) : List (List ℚ) :=
  store.set n ((store[n]?).getD [] ++ [v])

/-- Model of `rawData[column].append(net)`: normalize the index Python-style
and append; an out-of-range index is an `IndexError` (`none`). -/
def pyAppendAt (store : List (List ℚ)) (i : Int) (v : ℚ) :
    Option (List (List ℚ)) :=
  match pyNormIdx store.length i with
  | none => none
  | some n => some (listAppendAt store n v)

/-- The bucket index `(dow - 1) * 24 + hod` computed by `processFile`. -/
def bucketIndex (dow hod : Int) : Int := (dow - 1) * 24 + hod

/-- The initial global store of the script: 168 empty buckets, one per
hour-of-week (`rawData = [[] for x in range(168)]`). -/
def rawData : List (List ℚ) := List.replicate 168 []

/-- Model of one iteration of the loop body of `processFile` on one line of
a data file: split on ", ", parse day-of-week and hour-of-day as integers,
production and consumption with `floatMaybe`, and when consumption < 0
append `net = -production - consumption` to the bucket at
`(dow - 1) * 24 + hod`.  The result carries the updated store and the
number of diagnostic messages printed; exceptions abort the run. -/
def processLine (store : List (List ℚ)) (line : List Char) :
    Except String (List (List ℚ) × Nat) :=
  let row := pySplit line fieldSep
  match pyIdx row 1 with
  | none => Except.error "IndexError"
  | some f1 =>
    match pyInt f1 with
    | none => Except.error "ValueError"
    | some dow =>
      match pyIdx row 2 with
      | none => Except.error "IndexError"
      | some f2 =>
        match pyInt f2 with
        | none => Except.error "ValueError"
        | some hod =>
          match pyIdx row 3 with
          | none => Except.error "IndexError"
          | some f3 =>
            match floatMaybe f3 with
            | Except.error e => Except.error e
            | Except.ok (prod, d3) =>
              match pyIdx row 4 with
              | none => Except.error "IndexError"
              | some f4 =>
                match floatMaybe f4 with
                | Except.error e => Except.error e
                | Except.ok (cons, d4) =>
                  let diag := (if d3 then 1 else 0) + (if d4 then 1 else 0)
                  if cons < 0 then
                    match pyAppendAt store (bucketIndex dow hod) (-prod - cons) with
                    | none => Except.error "IndexError"
                    | some store2 => Except.ok (store2, diag)
                  else
                    Except.ok (store, diag)

/-- The loop of `processFile` over the lines of a file, threading the store
and accumulating the diagnostic count. -/
def processLines (store : List (List ℚ)) :
    List (List Char) → Except String (List (List ℚ) × Nat)
  | [] => Except.ok (store, 0)
  | l :: ls =>
    match processLine store l with
    | Except.error e => Except.error e
    | Except.ok (s1, d1) =>
      match processLines s1 ls with
      | Except.error e => Except.error e
      | Except.ok (s2, d2) => Except.ok (s2, d1 + d2)

/-- Model of Python `file.readlines()` on the file's content: split after
every newline, keeping the newline characters, dropping a final empty
piece. -/
def readlines : List Char → List (List Char)
  | [] => []
  | c :: cs =>
    if c = '\n' then ['\n'] :: readlines cs
    else
      match readlines cs with
      | [] => [[c]]
      | l :: ls => (c :: l) :: ls

/-- Model of `processFile`: read the file's content line by line and fold
the per-line step over the store. -/
def processFile (content : List Char) (store : List (List ℚ)) :
    Except String (List (List ℚ) × Nat) :=
  processLines store (readlines content)

/-- Does a file name match the glob pattern `*-prod-cons.data`? -/
def globMatch (name : List Char) : Bool :=
  List.isSuffixOf "-prod-cons.data".data name

/-- Model of a Python generator object: the values still to be yielded.
Iterating consumes them; an exhausted generator yields nothing. -/
structure PyGen (α : Type) where
  state : List α

/-- Fully iterate a generator (as a `for` loop does): the values yielded,
together with the exhausted generator left behind. -/
def PyGen.runGen {α : Type} (g : PyGen α) : List α × PyGen α :=
  (g.state, ⟨[]⟩)

/-- Model of `dataIter`: a generator over the directory entries whose names
match `*-prod-cons.data`, in enumeration order. -/
def dataIter (dirNames : List (List Char)) : PyGen (List Char) :=
  ⟨dirNames.filter globMatch⟩

/-- Process the named files of a directory (modelled as an association list
from file name to content) in order, threading the store. -/
def processPaths (dir : List (List Char × List Char)) :
    List (List Char) → List (List ℚ) → Except String (List (List ℚ) × Nat)
  | [], store => Except.ok (store, 0)
  | name :: rest, store =>
    match List.lookup name dir with
    | none => Except.error "FileNotFoundError"
    | some content =>
      match processFile content store with
      | Except.error e => Except.error e
      | Except.ok (s1, d1) =>
        match processPaths dir rest s1 with
        | Except.error e => Except.error e
        | Except.ok (s2, d2) => Except.ok (s2, d1 + d2)

/-- Model of `collectData`: process every file yielded by `dataIter`. -/
def collectData (dir : List (List Char × List Char)) (store : List (List ℚ)) :
    Except String (List (List ℚ) × Nat) :=
  processPaths dir ((dataIter (dir.map Prod.fst)).runGen.1) store

/-- A numpy scalar that is either `nan` or an exact value. -/
inductive RVal (α : Type) where
  | nan : RVal α
  | val : α → RVal α
  deriving DecidableEq

/-- Model of `numpy.mean` on a 1-d array: the arithmetic mean, `nan` on an
empty array (numpy warns but does not raise). -/
def npMean (l : List ℚ) : RVal ℚ :=
  if l = [] then RVal.nan else RVal.val (l.sum / l.length)

/-- Population variance as computed by `numpy.std` before the square root:
mean of squared deviations, `nan` on an empty array. -/
def npVar (l : List ℚ) : RVal ℚ :=
  match npMean l with
  | RVal.nan => RVal.nan
  | RVal.val m => RVal.val ((l.map (fun x => (x - m) ^ 2)).sum / l.length)

/-- Model of `numpy.std`: square root of the population variance, `nan` on
an empty array.  Exact real square root, hence noncomputable. -/
noncomputable def npStd (l : List ℚ) : RVal ℝ :=
  match npVar l with
  | RVal.nan => RVal.nan
  | RVal.val v => RVal.val (Real.sqrt (v : ℝ))

/-- Observable numeric output of `plotMeans`: the per-bucket means and the
per-bucket standard deviations handed to the plotting call. -/
noncomputable def plotMeans (store : List (List ℚ)) :
    List (RVal ℚ) × List (RVal ℝ) :=
  (store.map npMean, store.map npStd)

/-- The effect of one line on a store of the given length: `none` when the
line appends nothing, `some (n, v)` when it appends `v` at position `n`;
paired with the diagnostic count.  Mirrors `processLine`, which depends on
the store only through its length. -/
def lineEffect (len : Nat) (line : List Char) :
    Except String (Option (Nat × ℚ) × Nat) :=
  let row := pySplit line fieldSep
  match pyIdx row 1 with
  | none => Except.error "IndexError"
  | some f1 =>
    match pyInt f1 with
    | none => Except.error "ValueError"
    | some dow =>
      match pyIdx row 2 with
      | none => Except.error "IndexError"
      | some f2 =>
        match pyInt f2 with
        | none => Except.error "ValueError"
        | some hod =>
          match pyIdx row 3 with
          | none => Except.error "IndexError"
          | some f3 =>
            match floatMaybe f3 with
            | Except.error e => Except.error e
            | Except.ok (prod, d3) =>
              match pyIdx row 4 with
              | none => Except.error "IndexError"
              | some f4 =>
                match floatMaybe f4 with
                | Except.error e => Except.error e
                | Except.ok (cons, d4) =>
                  let diag := (if d3 then 1 else 0) + (if d4 then 1 else 0)
                  if cons < 0 then
                    match pyNormIdx len (bucketIndex dow hod) with
                    | none => Except.error "IndexError"
                    | some n => Except.ok (some (n, -prod - cons), diag)
                  else
                    Except.ok (none, diag)

/-- Apply the effect of one line to a store. -/
def applyEff (store : List (List ℚ)) : Option (Nat × ℚ) → List (List ℚ)
  | none => store
  | some p => listAppendAt store p.1 p.2

/-- Apply a list of append effects to a store, in order. -/
def applyEffs (store : List (List ℚ)) (effs : List (Nat × ℚ)) : List (List ℚ) :=
  effs.foldl (fun st p => listAppendAt st p.1 p.2) store

/-- The combined effects of a list of lines on a store of the given
length. -/
def linesEffect (len : Nat) :
    List (List Char) → Except String (List (Nat × ℚ) × Nat)
  | [] => Except.ok ([], 0)
  | l :: ls =>
    match lineEffect len l with
    | Except.error e => Except.error e
    | Except.ok (eff, d1) =>
      match linesEffect len ls with
      | Except.error e => Except.error e
      | Except.ok (effs, d2) => Except.ok (eff.toList ++ effs, d1 + d2)

/-- The values a list of effects appends to bucket `n`, in order. -/
def effsAt (n : Nat) (effs : List (Nat × ℚ)) : List ℚ :=
  (effs.filter (fun p => p.1 == n)).map Prod.snd

/-- The sample data line of the end-to-end test: day-of-week 1, hour 0,
production 2.0, consumption -5.0, separated by ", ", with trailing
newline. -/
def sampleLine : List Char := "1, 1, 0, 2.0, -5.0\n".data

/-- The sample directory of the end-to-end test: one file named
`g1-prod-cons.data` holding the sample line. -/
def sampleDir : List (List Char × List Char) :=
  [("g1-prod-cons.data".data, sampleLine)]

/-- Sample line with consumption exactly 0.0, used to exercise the
skip-on-nonnegative-consumption branch. -/
def sampleLineZero : List Char := "1, 1, 0, 2.0, 0.0\n".data

/-- Sample line with an empty production field and consumption -1.0. -/
def sampleLineEmptyProd : List Char := "1, 1, 0, , -1.0\n".data

set_option maxRecDepth 8000

theorem listAppendAt_length (store : List (List ℚ)) (n : Nat) (v : ℚ) :
    (listAppendAt store n v).length = store.length := by
  rw [listAppendAt, List.length_set]

theorem listAppendAt_getElem? (store : List (List ℚ)) (m n : Nat) (v : ℚ) :
    (listAppendAt store m v)[n]? =
      (store[n]?).map (fun l => l ++ (if m = n then [v] else [])) := by
  by_cases hmn : m = n
  · subst hmn
    rw [listAppendAt, List.getElem?_set_self']
    cases hs : store[m]? <;> simp [Function.const, hs]
  · rw [listAppendAt, List.getElem?_set_ne hmn]
    cases store[n]? <;> simp [hmn]

theorem applyEff_length (store : List (List ℚ)) (eff : Option (Nat × ℚ)) :
    (applyEff store eff).length = store.length := by
  cases eff with
  | none => rfl
  | some p => exact listAppendAt_length store p.1 p.2

theorem applyEffs_cons (store : List (List ℚ)) (p : Nat × ℚ) (effs : List (Nat × ℚ)) :
    applyEffs store (p :: effs) = applyEffs (listAppendAt store p.1 p.2) effs := rfl

theorem applyEffs_append (store : List (List ℚ)) (a b : List (Nat × ℚ)) :
    applyEffs store (a ++ b) = applyEffs (applyEffs store a) b := by
  rw [applyEffs, applyEffs, applyEffs, List.foldl_append]

theorem applyEff_toList (store : List (List ℚ)) (eff : Option (Nat × ℚ)) :
    applyEff store eff = applyEffs store eff.toList := by
  cases eff <;> rfl

theorem applyEffs_length (effs : List (Nat × ℚ)) :
    ∀ store : List (List ℚ), (applyEffs store effs).length = store.length := by
  induction effs with
  | nil => intro store; rfl
  | cons p effs ih =>
    intro store
    rw [applyEffs_cons, ih, listAppendAt_length]

theorem effsAt_cons (n : Nat) (p : Nat × ℚ) (effs : List (Nat × ℚ)) :
    effsAt n (p :: effs) = (if p.1 = n then [p.2] else []) ++ effsAt n effs := by
  rw [effsAt, effsAt, List.filter_cons]
  by_cases h : p.1 = n <;> simp [h]

theorem applyEffs_getElem? (effs : List (Nat × ℚ)) :
    ∀ (store : List (List ℚ)) (n : Nat),
      (applyEffs store effs)[n]? = (store[n]?).map (fun l => l ++ effsAt n effs) := by
  induction effs with
  | nil =>
    intro store n
    rw [show applyEffs store [] = store from rfl]
    cases store[n]? <;> simp [effsAt]
  | cons p effs ih =>
    intro store n
    rw [applyEffs_cons, ih, listAppendAt_getElem?, effsAt_cons]
    cases store[n]? <;> simp [List.append_assoc]

theorem processLine_effect (store : List (List ℚ)) (line : List Char) :
    processLine store line =
      match lineEffect store.length line with
      | Except.error e => Except.error e
      | Except.ok (eff, d) => Except.ok (applyEff store eff, d) := by
  simp only [processLine, lineEffect]
  cases pyIdx (pySplit line fieldSep) 1 with
  | none => rfl
  | some f1 =>
    simp only []
    cases pyInt f1 with
    | none => rfl
    | some dow =>
      simp only []
      cases pyIdx (pySplit line fieldSep) 2 with
      | none => rfl
      | some f2 =>
        simp only []
        cases pyInt f2 with
        | none => rfl
        | some hod =>
          simp only []
          cases pyIdx (pySplit line fieldSep) 3 with
          | none => rfl
          | some f3 =>
            simp only []
            cases floatMaybe f3 with
            | error e => rfl
            | ok p3 =>
              obtain ⟨prod, d3⟩ := p3
              simp only []
              cases pyIdx (pySplit line fieldSep) 4 with
              | none => rfl
              | some f4 =>
                simp only []
                cases floatMaybe f4 with
                | error e => rfl
                | ok p4 =>
                  obtain ⟨cons, d4⟩ := p4
                  simp only []
                  by_cases hc : cons < 0
                  · rw [if_pos hc, if_pos hc, pyAppendAt]
                    cases pyNormIdx store.length (bucketIndex dow hod) with
                    | none => rfl
                    | some n => rfl
                  · rw [if_neg hc, if_neg hc]
                    rfl

theorem processLines_effect (lines : List (List Char)) :
    ∀ store : List (List ℚ),
      processLines store lines =
        match linesEffect store.length lines with
        | Except.error e => Except.error e
        | Except.ok (effs, d) => Except.ok (applyEffs store effs, d) := by
  induction lines with
  | nil => intro store; rfl
  | cons l ls ih =>
    intro store
    rw [processLines, linesEffect, processLine_effect]
    cases lineEffect store.length l with
    | error e => rfl
    | ok p =>
      obtain ⟨eff, d1⟩ := p
      simp only [ih, applyEff_length]
      cases linesEffect store.length ls with
      | error e => rfl
      | ok p2 =>
        obtain ⟨effs, d2⟩ := p2
        simp only []
        rw [applyEffs_append, applyEff_toList]

theorem floatMaybe_nil : floatMaybe [] = Except.ok ((0 : ℚ), true) := rfl

theorem floatMaybe_two : floatMaybe ['2', '.', '0'] = Except.ok ((2 : ℚ), false) := by
  have hD : pyFloatD ['2', '.', '0'] = some (20, -1) := by decide
  have hne : (['2', '.', '0'] : List Char) ≠ [] := by decide
  rw [floatMaybe, if_pos hne, pyFloat, hD]
  norm_num [decVal]

theorem floatMaybe_mfive :
    floatMaybe ['-', '5', '.', '0', '\n'] = Except.ok ((-5 : ℚ), false) := by
  have hD : pyFloatD ['-', '5', '.', '0', '\n'] = some (-50, -1) := by decide
  have hne : (['-', '5', '.', '0', '\n'] : List Char) ≠ [] := by decide
  rw [floatMaybe, if_pos hne, pyFloat, hD]
  norm_num [decVal]

theorem floatMaybe_zero :
    floatMaybe ['0', '.', '0', '\n'] = Except.ok ((0 : ℚ), false) := by
  have hD : pyFloatD ['0', '.', '0', '\n'] = some (0, -1) := by decide
  have hne : (['0', '.', '0', '\n'] : List Char) ≠ [] := by decide
  rw [floatMaybe, if_pos hne, pyFloat, hD]
  norm_num [decVal]

theorem floatMaybe_mone :
    floatMaybe ['-', '1', '.', '0', '\n'] = Except.ok ((-1 : ℚ), false) := by
  have hD : pyFloatD ['-', '1', '.', '0', '\n'] = some (-10, -1) := by decide
  have hne : (['-', '1', '.', '0', '\n'] : List Char) ≠ [] := by decide
  rw [floatMaybe, if_pos hne, pyFloat, hD]
  norm_num [decVal]

theorem sampleRun : processLine rawData sampleLine =
    Except.ok (rawData.set 0 [(3 : ℚ)], 0) := by
  have hrow : pySplit sampleLine fieldSep =
      [['1'], ['1'], ['0'], ['2', '.', '0'], ['-', '5', '.', '0', '\n']] := by decide
  have h1 : pyIdx [['1'], ['1'], ['0'], ['2', '.', '0'], ['-', '5', '.', '0', '\n']] 1 =
      some ['1'] := by decide
  have h2 : pyIdx [['1'], ['1'], ['0'], ['2', '.', '0'], ['-', '5', '.', '0', '\n']] 2 =
      some ['0'] := by decide
  have h3 : pyIdx [['1'], ['1'], ['0'], ['2', '.', '0'], ['-', '5', '.', '0', '\n']] 3 =
      some ['2', '.', '0'] := by decide
  have h4 : pyIdx [['1'], ['1'], ['0'], ['2', '.', '0'], ['-', '5', '.', '0', '\n']] 4 =
      some ['-', '5', '.', '0', '\n'] := by decide
  have hi1 : pyInt ['1'] = some 1 := by decide
  have hi0 : pyInt ['0'] = some 0 := by decide
  simp only [processLine, hrow, h1, h2, h3, h4, hi1, hi0, floatMaybe_two,
    floatMaybe_mfive]
  norm_num [bucketIndex, pyAppendAt, pyNormIdx, listAppendAt, rawData,
    List.getElem?_replicate]

theorem sampleFileRun : processFile sampleLine rawData =
    Except.ok (rawData.set 0 [(3 : ℚ)], 0) := by
  have hrl : readlines sampleLine = [sampleLine] := by decide
  rw [processFile, hrl, processLines, sampleRun]
  rfl

/-- C1: for every input line whose parsed consumption is strictly negative,
`processFile`'s loop body computes `net = -production - consumption` and
appends exactly that value to the bucket with index
`(day_of_week - 1) * 24 + hour_of_day`, printing a diagnostic only for the
fields whose tolerant parse defaulted. -/
theorem claim1_negative_consumption_appends_net
    (store : List (List ℚ)) (line : List Char)
    (row : List (List Char)) (f1 f2 f3 f4 : List Char)
    (dow hod : Int) (prod cons : ℚ) (d3 d4 : Bool)
    (hrow : pySplit line fieldSep = row)
    (h1 : pyIdx row 1 = some f1) (hdow : pyInt f1 = some dow)
    (h2 : pyIdx row 2 = some f2) (hhod : pyInt f2 = some hod)
    (h3 : pyIdx row 3 = some f3) (hprod : floatMaybe f3 = Except.ok (prod, d3))
    (h4 : pyIdx row 4 = some f4) (hcons : floatMaybe f4 = Except.ok (cons, d4))
    (hneg : cons < 0)
    (hd1 : 1 ≤ dow) (hd7 : dow ≤ 7) (hh0 : 0 ≤ hod) (hh23 : hod ≤ 23)
    (hlen : store.length = 168) :
    processLine store line =
      Except.ok (store.set (bucketIndex dow hod).toNat
        ((store[(bucketIndex dow hod).toNat]?).getD [] ++ [-prod - cons]),
        (if d3 then 1 else 0) + (if d4 then 1 else 0)) := by
  have hge : 0 ≤ bucketIndex dow hod := by
    simp only [bucketIndex]; omega
  have hlt : (bucketIndex dow hod).toNat < 168 := by
    simp only [bucketIndex]; omega
  have hn : pyNormIdx store.length (bucketIndex dow hod) =
      some (bucketIndex dow hod).toNat := by
    rw [hlen, pyNormIdx, if_pos hge, if_pos hlt]
  simp only [processLine, hrow, h1, hdow, h2, hhod, h3, hprod, h4, hcons]
  rw [if_pos hneg]
  simp only [pyAppendAt, hn, listAppendAt]

/-- Witness for C1 at the sample line `1, 1, 0, 2.0, -5.0`: the net value
appended to bucket 0 is `-2.0 - (-5.0)`, which equals 3.0. -/
theorem claim1_witness :
    processLine rawData sampleLine =
      Except.ok (rawData.set (bucketIndex 1 0).toNat
        ((rawData[(bucketIndex 1 0).toNat]?).getD [] ++ [-(2 : ℚ) - (-5)]),
        (if false then 1 else 0) + (if false then 1 else 0)) ∧
    -(2 : ℚ) - (-5) = 3 :=
  ⟨claim1_negative_consumption_appends_net rawData sampleLine
      [['1'], ['1'], ['0'], ['2', '.', '0'], ['-', '5', '.', '0', '\n']]
      ['1'] ['0'] ['2', '.', '0'] ['-', '5', '.', '0', '\n']
      1 0 2 (-5) false false
      (by decide) (by decide) (by decide) (by decide) (by decide) (by decide)
      floatMaybe_two (by decide) floatMaybe_mfive
      (by norm_num) (by decide) (by decide) (by decide) (by decide) rfl,
    by norm_num⟩

/-- C5: a row whose parsed consumption is greater than or equal to 0.0
(including exactly 0.0) appends nothing: the store after the line equals
the store before it. -/
theorem claim5_nonnegative_consumption_skipped
    (store : List (List ℚ)) (line : List Char)
    (row : List (List Char)) (f1 f2 f3 f4 : List Char)
    (dow hod : Int) (prod cons : ℚ) (d3 d4 : Bool)
    (hrow : pySplit line fieldSep = row)
    (h1 : pyIdx row 1 = some f1) (hdow : pyInt f1 = some dow)
    (h2 : pyIdx row 2 = some f2) (hhod : pyInt f2 = some hod)
    (h3 : pyIdx row 3 = some f3) (hprod : floatMaybe f3 = Except.ok (prod, d3))
    (h4 : pyIdx row 4 = some f4) (hcons : floatMaybe f4 = Except.ok (cons, d4))
    (hpos : 0 ≤ cons) :
    processLine store line =
      Except.ok (store, (if d3 then 1 else 0) + (if d4 then 1 else 0)) := by
  simp only [processLine, hrow, h1, hdow, h2, hhod, h3, hprod, h4, hcons]
  rw [if_neg (not_lt.mpr hpos)]

/-- Witness for C5 at the line `1, 1, 0, 2.0, 0.0`: consumption 0.0 leaves
the whole store untouched. -/
theorem claim5_witness :
    processLine rawData sampleLineZero =
      Except.ok (rawData, (if false then 1 else 0) + (if false then 1 else 0)) :=
  claim5_nonnegative_consumption_skipped rawData sampleLineZero
    [['1'], ['1'], ['0'], ['2', '.', '0'], ['0', '.', '0', '\n']]
    ['1'] ['0'] ['2', '.', '0'] ['0', '.', '0', '\n']
    1 0 2 0 false false
    (by decide) (by decide) (by decide) (by decide) (by decide) (by decide)
    floatMaybe_two (by decide) floatMaybe_zero
    (by norm_num)

/-- C6: a row with an empty production field and consumption -1.0 appends
net value 1.0 (computed as 0.0 - (-1.0)) to the row's bucket and prints
exactly one diagnostic message, for the empty field. -/
theorem claim6_empty_production_field
    (store : List (List ℚ)) (line : List Char)
    (row : List (List Char)) (f1 f2 f4 : List Char)
    (dow hod : Int) (d4 : Bool)
    (hrow : pySplit line fieldSep = row)
    (h1 : pyIdx row 1 = some f1) (hdow : pyInt f1 = some dow)
    (h2 : pyIdx row 2 = some f2) (hhod : pyInt f2 = some hod)
    (h3 : pyIdx row 3 = some [])
    (h4 : pyIdx row 4 = some f4) (hcons : floatMaybe f4 = Except.ok (-1, d4))
    (hd1 : 1 ≤ dow) (hd7 : dow ≤ 7) (hh0 : 0 ≤ hod) (hh23 : hod ≤ 23)
    (hlen : store.length = 168) :
    processLine store line =
      Except.ok (store.set (bucketIndex dow hod).toNat
        ((store[(bucketIndex dow hod).toNat]?).getD [] ++ [1]), 1) := by
  have hd4 : d4 = false := by
    by_cases hf : f4 = []
    · rw [hf, floatMaybe_nil] at hcons
      simp only [Except.ok.injEq, Prod.mk.injEq] at hcons
      norm_num at hcons
    · rw [floatMaybe, if_pos hf] at hcons
      cases hpf : pyFloat f4 with
      | none => rw [hpf] at hcons; exact absurd hcons (by simp)
      | some v =>
        rw [hpf] at hcons
        simp only [Except.ok.injEq, Prod.mk.injEq] at hcons
        exact hcons.2.symm
  rw [hd4] at hcons
  have hge : 0 ≤ bucketIndex dow hod := by
    simp only [bucketIndex]; omega
  have hlt : (bucketIndex dow hod).toNat < 168 := by
    simp only [bucketIndex]; omega
  have hn : pyNormIdx store.length (bucketIndex dow hod) =
      some (bucketIndex dow hod).toNat := by
    rw [hlen, pyNormIdx, if_pos hge, if_pos hlt]
  simp only [processLine, hrow, h1, hdow, h2, hhod, h3, floatMaybe_nil, h4, hcons]
  rw [if_pos (show (-1 : ℚ) < 0 by norm_num)]
  simp only [pyAppendAt, hn, listAppendAt]
  norm_num

/-- Witness for C6 at the line `1, 1, 0, , -1.0`: net 1.0 lands in bucket 0
with one diagnostic printed. -/
theorem claim6_witness :
    processLine rawData sampleLineEmptyProd =
      Except.ok (rawData.set (bucketIndex 1 0).toNat
        ((rawData[(bucketIndex 1 0).toNat]?).getD [] ++ [1]), 1) :=
  claim6_empty_production_field rawData sampleLineEmptyProd
    [['1'], ['1'], ['0'], [], ['-', '1', '.', '0', '\n']]
    ['1'] ['0'] ['-', '1', '.', '0', '\n']
    1 0 false
    (by decide) (by decide) (by decide) (by decide) (by decide) (by decide)
    (by decide) floatMaybe_mone
    (by decide) (by decide) (by decide) (by decide) rfl

/-- C2: for every pair with day-of-week in [1,7] and hour-of-day in [0,23],
the bucket index `(dow - 1) * 24 + hod` lies in [0,167], and the mapping is
injective: two valid pairs with the same bucket index are equal. -/
theorem claim2_bucket_index_total_injective :
    ∀ dow hod : Int, 1 ≤ dow → dow ≤ 7 → 0 ≤ hod → hod ≤ 23 →
      (0 ≤ bucketIndex dow hod ∧ bucketIndex dow hod ≤ 167) ∧
      ∀ dow2 hod2 : Int, 1 ≤ dow2 → dow2 ≤ 7 → 0 ≤ hod2 → hod2 ≤ 23 →
        bucketIndex dow hod = bucketIndex dow2 hod2 → dow = dow2 ∧ hod = hod2 := by
  intro dow hod h1 h2 h3 h4
  constructor
  · simp only [bucketIndex]; omega
  · intro dow2 hod2 g1 g2 g3 g4 heq
    simp only [bucketIndex] at heq
    omega

/-- Witness for C2 at the pair (3, 7): the index is in range, and equality
of indices forces equality of pairs. -/
theorem claim2_witness :
    (0 ≤ bucketIndex 3 7 ∧ bucketIndex 3 7 ≤ 167) ∧
    ((3 : Int) = 3 ∧ (7 : Int) = 7) :=
  ⟨(claim2_bucket_index_total_injective 3 7 (by decide) (by decide) (by decide)
      (by decide)).1,
    (claim2_bucket_index_total_injective 3 7 (by decide) (by decide) (by decide)
      (by decide)).2 3 7 (by decide) (by decide) (by decide) (by decide) rfl⟩

/-- C4: `floatMaybe` returns 0.0 with a diagnostic on the empty string; on
a non-empty string it returns the parsed value without a diagnostic when
the text is valid, and fails with a parse error (no diagnostic, no default)
when the text is invalid. -/
theorem claim4_floatMaybe_contract :
    floatMaybe [] = Except.ok ((0 : ℚ), true) ∧
    (∀ (s : List Char) (v : ℚ), s ≠ [] → pyFloat s = some v →
      floatMaybe s = Except.ok (v, false)) ∧
    (∀ s : List Char, s ≠ [] → pyFloat s = none →
      floatMaybe s = Except.error "ValueError") := by
  refine ⟨rfl, ?_, ?_⟩
  · intro s v hs hv
    rw [floatMaybe, if_pos hs, hv]
  · intro s hs hv
    rw [floatMaybe, if_pos hs, hv]

/-- Witness for C4: the valid text `2.0` parses to 2.0 without diagnostic,
and the invalid text `x` raises. -/
theorem claim4_witness :
    floatMaybe ['2', '.', '0'] = Except.ok ((2 : ℚ), false) ∧
    floatMaybe ['x'] = Except.error "ValueError" :=
  ⟨claim4_floatMaybe_contract.2.1 ['2', '.', '0'] 2 (by decide)
      (by rw [pyFloat, show pyFloatD ['2', '.', '0'] = some (20, -1) from by decide]
          norm_num [decVal]),
    claim4_floatMaybe_contract.2.2 ['x'] (by decide)
      (by rw [pyFloat, show pyFloatD ['x'] = none from by decide])⟩

/-- C7 counterexample: the generator returned by `dataIter` is one-shot,
not restartable.  For the directory holding the single matching file
`g1-prod-cons.data`, the first full iteration yields that path, but
iterating the returned sequence again from the start yields nothing, so
re-iteration does not reproduce the same paths. -/
theorem claim7_counterexample :
    (dataIter ["g1-prod-cons.data".data]).runGen.1 = ["g1-prod-cons.data".data] ∧
    (dataIter ["g1-prod-cons.data".data]).runGen.2.runGen.1 = [] ∧
    (dataIter ["g1-prod-cons.data".data]).runGen.2.runGen.1 ≠
      (dataIter ["g1-prod-cons.data".data]).runGen.1 := by
  refine ⟨by decide, rfl, by decide⟩

/-- C7 (amended): file discovery yields a lazy, finite, one-shot sequence
of exactly the file names in the directory matching `*-prod-cons.data`;
iterating it a second time yields the empty sequence; an empty directory
gives the empty sequence without error. -/
theorem claim7_discovery_one_shot :
    (∀ dirNames : List (List Char),
      (dataIter dirNames).runGen.1 = dirNames.filter globMatch) ∧
    (∀ dirNames : List (List Char),
      (dataIter dirNames).runGen.2.runGen.1 = []) ∧
    (dataIter []).runGen.1 = [] :=
  ⟨fun _ => rfl, fun _ => rfl, rfl⟩

/-- C9: a bucket that is empty at summarization time yields `nan` for both
its mean and its standard deviation; summarization is total, so no error is
raised for empty buckets. -/
theorem claim9_empty_bucket_nan (store : List (List ℚ)) (n : Nat)
    (h : store[n]? = some []) :
    (plotMeans store).1[n]? = some RVal.nan ∧
    (plotMeans store).2[n]? = some RVal.nan := by
  constructor
  · simp only [plotMeans, List.getElem?_map, h, Option.map_some']
    rfl
  · simp only [plotMeans, List.getElem?_map, h, Option.map_some']
    rfl

/-- Witness for C9 at the fresh store: bucket 0 is empty, so its mean and
standard deviation are both `nan`. -/
theorem claim9_witness :
    (plotMeans rawData).1[0]? = some RVal.nan ∧
    (plotMeans rawData).2[0]? = some RVal.nan :=
  claim9_empty_bucket_nan rawData 0 (by decide)

/-- C3: end-to-end.  Starting from the fresh all-empty store, processing a
directory with the single file `g1-prod-cons.data` whose one data line is
`1, 1, 0, 2.0, -5.0` (fields separated by the two-character sequence ", ")
leaves bucket 0 holding exactly [3.0] and the other 167 buckets empty, and
summarization yields mean 3.0 and standard deviation 0.0 for bucket 0. -/
theorem claim3_end_to_end :
    collectData sampleDir rawData =
      Except.ok (([(3 : ℚ)]) :: List.replicate 167 [], 0) ∧
    (plotMeans (([(3 : ℚ)]) :: List.replicate 167 [])).1[0]? =
      some (RVal.val 3) ∧
    (plotMeans (([(3 : ℚ)]) :: List.replicate 167 [])).2[0]? =
      some (RVal.val 0) := by
  refine ⟨?_, ?_, ?_⟩
  · have hnames : (dataIter (sampleDir.map Prod.fst)).runGen.1 =
        ["g1-prod-cons.data".data] := by decide
    have hlook : List.lookup "g1-prod-cons.data".data sampleDir =
        some sampleLine := by decide
    rw [collectData, hnames, processPaths, hlook]
    simp only [sampleFileRun]
    rfl
  · have hm : npMean [(3 : ℚ)] = RVal.val 3 := by
      norm_num [npMean]
    simp only [plotMeans, List.map_cons, List.getElem?_cons_zero, hm]
  · have hv : npVar [(3 : ℚ)] = RVal.val 0 := by
      norm_num [npVar, npMean]
    have hs : npStd [(3 : ℚ)] = RVal.val 0 := by
      rw [npStd, hv]
      norm_num [Real.sqrt_zero]
    simp only [plotMeans, List.map_cons, List.getElem?_cons_zero, hs]

/-- C8: aggregation is not idempotent over the shared store.  Whenever
processing a file from some starting store succeeds, processing the same
file again from the resulting store succeeds with the same diagnostics and
appends the same per-bucket contribution a second time: each bucket ends
as its starting contents followed by the contribution twice. -/
theorem claim8_not_idempotent (content : List Char)
    (store s1 : List (List ℚ)) (d1 : Nat)
    (h : processFile content store = Except.ok (s1, d1)) :
    ∃ s2, processFile content s1 = Except.ok (s2, d1) ∧
      ∀ n : Nat, ∃ c : List ℚ, s1[n]? = (store[n]?).map (fun l => l ++ c) ∧
        s2[n]? = (store[n]?).map (fun l => l ++ (c ++ c)) := by
  rw [processFile, processLines_effect] at h
  cases hle : linesEffect store.length (readlines content) with
  | error e => rw [hle] at h; exact absurd h (by simp)
  | ok p =>
    obtain ⟨effs, d⟩ := p
    rw [hle] at h
    simp only [Except.ok.injEq, Prod.mk.injEq] at h
    obtain ⟨hs1, hd⟩ := h
    have hlen : s1.length = store.length := by
      rw [← hs1]; exact applyEffs_length effs store
    refine ⟨applyEffs s1 effs, ?_, ?_⟩
    · rw [processFile, processLines_effect, hlen, hle, hd]
    · intro n
      refine ⟨effsAt n effs, ?_, ?_⟩
      · rw [← hs1]; exact applyEffs_getElem? effs store n
      · rw [applyEffs_getElem? effs s1 n, ← hs1, applyEffs_getElem? effs store n]
        cases store[n]? <;> simp [List.append_assoc]

/-- Witness for C8: processing the sample file twice from the fresh store
duplicates its contribution. -/
theorem claim8_witness :
    ∃ s2, processFile sampleLine (rawData.set 0 [(3 : ℚ)]) = Except.ok (s2, 0) ∧
      ∀ n : Nat, ∃ c : List ℚ, (rawData.set 0 [(3 : ℚ)])[n]? = (rawData[n]?).map (fun l => l ++ c) ∧
        s2[n]? = (rawData[n]?).map (fun l => l ++ (c ++ c)) :=
  claim8_not_idempotent sampleLine rawData (rawData.set 0 [(3 : ℚ)]) 0 sampleFileRun

/-- C10: the store starts as 168 empty buckets, and processing any file
only appends to existing buckets: the store's length is preserved and each
bucket's new contents are its old contents with some suffix appended, so
the length-168 structure is invariant under aggregation. -/
theorem claim10_store_invariant :
    rawData = List.replicate 168 [] ∧ rawData.length = 168 ∧
    ∀ (content : List Char) (store s1 : List (List ℚ)) (d : Nat),
      processFile content store = Except.ok (s1, d) →
        s1.length = store.length ∧
        ∀ n : Nat, ∃ c : List ℚ, s1[n]? = (store[n]?).map (fun l => l ++ c) := by
  refine ⟨rfl, rfl, ?_⟩
  intro content store s1 d h
  rw [processFile, processLines_effect] at h
  cases hle : linesEffect store.length (readlines content) with
  | error e => rw [hle] at h; exact absurd h (by simp)
  | ok p =>
    obtain ⟨effs, d2⟩ := p
    rw [hle] at h
    simp only [Except.ok.injEq, Prod.mk.injEq] at h
    obtain ⟨hs1, hd⟩ := h
    constructor
    · rw [← hs1]; exact applyEffs_length effs store
    · intro n
      exact ⟨effsAt n effs, by rw [← hs1]; exact applyEffs_getElem? effs store n⟩

/-- Witness for C10: the sample run preserves the length of the store and
only appends to buckets. -/
theorem claim10_witness :
    (rawData.set 0 [(3 : ℚ)]).length = rawData.length ∧
    ∀ n : Nat, ∃ c : List ℚ, (rawData.set 0 [(3 : ℚ)])[n]? = (rawData[n]?).map (fun l => l ++ c) :=
  claim10_store_invariant.2.2 sampleLine rawData (rawData.set 0 [(3 : ℚ)]) 0
    sampleFileRun
